import Mathlib

/-!
# Verification of the TFTP client transfer engine

Shallow embedding of the TFTP client (src/기말과제.py) in Lean 4.

The embedded core is the transfer engine: message packing/unpacking
(`pack('>hh', ...)` / `unpack('>hh', data[:4])`), the per-datagram receive
step `receive_data`, and the download (`download_file`) and upload
(`upload_file`) loops, each modelled as a step function on explicit session
state consuming one network event (a received datagram with its source
endpoint, or a receive timeout) per loop iteration, plus a run function
folding a list of events.  Socket creation, `argparse` and the CLI glue are
out of scope, as are the actual OS file handles: the destination file is
the `fileContents` byte list of the download state, the source file is a
byte list parameter of the upload step, and `os.remove` is modelled by the
`Option` disk component of the final download result.

Python `struct` semantics modelled exactly: the `h` format is a *signed*
16-bit big-endian field, so `pack` raises `struct.error` (here: `none`)
outside [-32768, 32767], and `unpack` of 4 bytes yields signed values;
`unpack` of fewer than 4 bytes raises `struct.error` (here: the receive
step yields `none`, crashing the loop, since only `socket.timeout` is
caught).  `recvfrom(516)` truncates the datagram to 516 bytes.
-/

set_option maxRecDepth 100000

namespace TFTP

/-- An (address, port) pair identifying a communication peer, as produced by
`recvfrom` and consumed by `sendto`. -/
structure Endpoint where
  host : String
  port : Nat
deriving DecidableEq

/-- `BLOCK_SIZE = 512` from the source. -/
def BLOCK_SIZE : Nat := 512

/-- `OPCODE['RRQ']`. -/
def OPCODE_RRQ : Int := 1

/-- `OPCODE['WRQ']`. -/
def OPCODE_WRQ : Int := 2

/-- `OPCODE['DATA']`. -/
def OPCODE_DATA : Int := 3

/-- `OPCODE['ACK']`. -/
def OPCODE_ACK : Int := 4

/-- `OPCODE['ERROR']`. -/
def OPCODE_ERROR : Int := 5

/-- `ERROR_CODE.get(c, "알 수 없는 오류")`: the error-code table of the source
with the default string used at the download call site. -/
def ERROR_CODE_get (c : Int) : String :=
  if c = 0 then "Not defined, see error message (if any)."
  else if c = 1 then "File not found."
  else if c = 2 then "Access violation."
  else if c = 3 then "Disk full or allocation exceeded."
  else if c = 4 then "Illegal TFTP operation."
  else if c = 5 then "Unknown transfer ID."
  else if c = 6 then "File already exists."
  else if c = 7 then "No such user."
  else "알 수 없는 오류"

/-- Packing one `h` field of `pack('>hh', ...)`: big-endian *signed* 16-bit.
Out of the range [-32768, 32767], Python `struct.pack` raises
`struct.error`, modelled by `none`; otherwise the two's-complement bytes. -/
def packh (v : Int) : Option (List Nat) :=
  if -32768 ≤ v ∧ v ≤ 32767 then
    some [(v % 65536).toNat / 256, (v % 65536).toNat % 256]
  else none

/-- Unpacking one `h` field of `unpack('>hh', ...)`: the unsigned big-endian
16-bit value reinterpreted as signed two's complement. -/
def toSigned16 (u : Nat) : Int :=
  if u < 32768 then (u : Int) else (u : Int) - 65536

/-- `send_ack`: builds `pack('>hh', OPCODE['ACK'], block_num)`; `none` is a
raised `struct.error` when the block number is out of signed range. -/
def send_ack (block_num : Int) : Option (List Nat) :=
  match packh OPCODE_ACK, packh block_num with
  | some a, some b => some (a ++ b)
  | _, _ => none

/-- `send_data`: builds `pack('>hh', OPCODE['DATA'], block_num) + data_block`;
`none` is a raised `struct.error` when the block number is out of signed
range. -/
def send_data (block_num : Int) (data_block : List Nat) : Option (List Nat) :=
  match packh OPCODE_DATA, packh block_num with
  | some a, some b => some (a ++ b ++ data_block)
  | _, _ => none

/-- One network event seen by a blocking `recvfrom` call: either a datagram
(raw bytes plus source endpoint) or the 5-second timeout elapsing. -/
inductive NetEvent where
  | timeout
  | datagram (raw : List Nat) (src : Endpoint)
deriving DecidableEq

/-- The value `receive_data` returns: the `(opcode, block_num, file_data,
server)` tuple, or the `(None, None, None, None)` tuple produced when
`socket.timeout` is caught. -/
inductive RecvResult where
  | ok (opcode : Int) (block_num : Int) (file_data : List Nat) (server : Endpoint)
  | timedOut
deriving DecidableEq

/-- `receive_data(sock, expected_block_num)`: `recvfrom(516)` truncates to
516 bytes; `unpack('>hh', data[:4])` splits opcode and block number and
raises `struct.error` (modelled `none`, uncaught) when fewer than 4 bytes
arrived; `socket.timeout` is caught and the all-`None` tuple returned.  The
`expected_block_num` parameter is unused in the source. -/
def receive_data (_expected_block_num : Nat) (ev : NetEvent) :
    Option RecvResult :=
  match ev with
  | .timeout => some .timedOut
  | .datagram raw src =>
    match raw.take 516 with
    | b0 :: b1 :: b2 :: b3 :: rest =>
      some (.ok (toSigned16 (b0 * 256 + b1)) (toSigned16 (b2 * 256 + b3)) rest src)
    | _ => none

/-! ## Download (`download_file`) -/

/-- Session state of the download loop: `expected_block_num` (a Python
int, starting at 1) and the bytes written to the destination file so far. -/
structure DlState where
  expected : Nat
  fileContents : List Nat
deriving DecidableEq

/-- Control outcome of one download loop iteration. -/
inductive DlNext where
  | cont (s : DlState)
  | done (s : DlState)
  | fail (msg : String)
  | crash
deriving DecidableEq

/-- One iteration of the `while True` loop of `download_file`, consuming one
network event.  Returns the `sendto` performed this iteration (ACK bytes and
destination endpoint), if any, and the control outcome:
`cont` loops again, `done` is the `break` after the final block, `fail` is
the ERROR branch (translate via `ERROR_CODE.get`, `os.remove`, `break`), and
`crash` is an uncaught exception. -/
def download_step (s : DlState) (ev : NetEvent) :
    Option (List Nat × Endpoint) × DlNext :=
  match receive_data s.expected ev with
  | none => (none, .crash)
  | some .timedOut => (none, .cont s)
  | some (.ok opcode block_num file_data server) =>
    if opcode = OPCODE_DATA ∧ block_num = (s.expected : Int) then
      match send_ack block_num with
      | none => (none, .crash)
      | some ack =>
        let s' : DlState := ⟨s.expected + 1, s.fileContents ++ file_data⟩
        if file_data.length < BLOCK_SIZE then (some (ack, server), .done s')
        else (some (ack, server), .cont s')
    else if opcode = OPCODE_ERROR then
      (none, .fail (ERROR_CODE_get block_num))
    else (none, .cont s)

/-- Final observation of a download run: still looping, completed
successfully, failed (with the translated message and the destination file
on disk, `none` after `os.remove`), or crashed by an uncaught exception. -/
inductive DlResult where
  | running (s : DlState)
  | success (s : DlState)
  | failure (msg : String) (disk : Option (List Nat))
  | crash
deriving DecidableEq

/-- Runs the download loop over a list of network events, collecting every
`sendto` performed (bytes and destination) and the final result.  The loop
starts from state `⟨1, []⟩`: `expected_block_num = 1` and the destination
file freshly truncated by `open(filename, 'wb')`. -/
def download_run (s : DlState) : List NetEvent → List (List Nat × Endpoint) × DlResult
  | [] => ([], .running s)
  | ev :: rest =>
    match download_step s ev with
    | (sent, .cont s') =>
      (sent.toList ++ (download_run s' rest).1, (download_run s' rest).2)
    | (sent, .done s') => (sent.toList, .success s')
    | (sent, .fail m) => (sent.toList, .failure m none)
    | (sent, .crash) => (sent.toList, .crash)

/-! ## Upload (`upload_file`) -/

/-- Session state of the upload loop: the current `block_num` (a Python int,
starting at 1) and the read position of the source file handle. -/
structure UlState where
  block_num : Nat
  pos : Nat
deriving DecidableEq

/-- Control outcome of one upload loop iteration. -/
inductive UlNext where
  | cont (s : UlState)
  | done (s : UlState)
  | crash
deriving DecidableEq

/-- One iteration of the `while True` loop of `upload_file`, consuming one
network event.  `file.read(BLOCK_SIZE)` is taken from the current position
of `fileBytes` and advances it; the built DATA message is sent to
`server_address` (the function argument, never re-targeted).  The reply is
decoded by `receive_data`; only an ACK whose block number equals the current
one advances `block_num` (and breaks when the chunk was short).  Any other
reply, and the caught timeout, fall through and loop.  The `except
socket.timeout: continue` in the source is unreachable because
`receive_data` already catches the timeout; semantics are identical either
way.  `crash` models a raised `struct.error` (block number out of signed
range when packing — nothing is sent — or a datagram shorter than 4 bytes
when unpacking). -/
def upload_step (fileBytes : List Nat) (server_address : Endpoint)
    (s : UlState) (ev : NetEvent) : Option (List Nat × Endpoint) × UlNext :=
  let data_block := (fileBytes.drop s.pos).take BLOCK_SIZE
  match send_data (s.block_num : Int) data_block with
  | none => (none, .crash)
  | some msg =>
    let s1 : UlState := ⟨s.block_num, s.pos + data_block.length⟩
    match receive_data s.block_num ev with
    | none => (some (msg, server_address), .crash)
    | some .timedOut => (some (msg, server_address), .cont s1)
    | some (.ok opcode ack_block_num _ _) =>
      if opcode = OPCODE_ACK ∧ ack_block_num = (s.block_num : Int) then
        if data_block.length < BLOCK_SIZE then
          (some (msg, server_address), .done ⟨s.block_num + 1, s1.pos⟩)
        else (some (msg, server_address), .cont ⟨s.block_num + 1, s1.pos⟩)
      else (some (msg, server_address), .cont s1)

/-- Final observation of an upload run. -/
inductive UlResult where
  | running (s : UlState)
  | success (s : UlState)
  | crash
deriving DecidableEq

/-- Runs the upload loop over a list of network events, collecting every
DATA `sendto` performed (bytes and destination) and the final result.  The
loop starts from state `⟨1, 0⟩`: `block_num = 1`, file handle at the
beginning. -/
def upload_run (fileBytes : List Nat) (server_address : Endpoint)
    (s : UlState) : List NetEvent → List (List Nat × Endpoint) × UlResult
  | [] => ([], .running s)
  | ev :: rest =>
    match upload_step fileBytes server_address s ev with
    | (sent, .cont s') =>
      (sent.toList ++ (upload_run fileBytes server_address s' rest).1,
       (upload_run fileBytes server_address s' rest).2)
    | (sent, .done s') => (sent.toList, .success s')
    | (sent, .crash) => (sent.toList, .crash)

/-! ## Test-vector constructors and spec-side definitions -/

/-- Wire bytes of a DATA datagram with the given block number (< 65536) and
payload, as a server would send it. -/
def mkDATA (blk : Nat) (payload : List Nat) : List Nat :=
  0 :: 3 :: blk / 256 :: blk % 256 :: payload

/-- Wire bytes of an ACK datagram with the given block number (< 65536). -/
def mkACK (blk : Nat) : List Nat :=
  [0, 4, blk / 256, blk % 256]

/-- Wire bytes of an ERROR datagram with the given error code (< 65536);
the trailing human-readable message bytes are informational only. -/
def mkERROR (code : Nat) (msg : List Nat) : List Nat :=
  0 :: 5 :: code / 256 :: code % 256 :: msg

/-- Follows the spec's words (§8): the payloads of the accepted DATA
messages of an event sequence, in increasing block-number order starting at
`expected`; acceptance is exact block-number match, the sequence ends at the
first short (final) payload, a peer ERROR, or an undecodable datagram. -/
def spec_accepted_payloads (expected : Nat) : List NetEvent → List (List Nat)
  | [] => []
  | ev :: rest =>
    match receive_data expected ev with
    | none => []
    | some .timedOut => spec_accepted_payloads expected rest
    | some (.ok opcode block_num file_data _) =>
      if opcode = OPCODE_DATA ∧ block_num = (expected : Int) then
        if file_data.length < BLOCK_SIZE then [file_data]
        else file_data :: spec_accepted_payloads (expected + 1) rest
      else if opcode = OPCODE_ERROR then []
      else spec_accepted_payloads expected rest

/-- A concrete server-side ephemeral endpoint, used as a test vector. -/
def srvE : Endpoint := ⟨"203.0.113.5", 50001⟩

/-- A concrete endpoint distinct from `srvE`, used as the third-party
sender in endpoint tests. -/
def atkE : Endpoint := ⟨"203.0.113.66", 50002⟩

end TFTP

namespace TFTP

/-! ## Helper lemmas -/

/-- The result of one more download-loop iteration, split on the step's
control outcome. -/
theorem download_run_cons (s : DlState) (ev : NetEvent) (rest : List NetEvent) :
    (download_run s (ev :: rest)).2 =
      match (download_step s ev).2 with
      | .cont s' => (download_run s' rest).2
      | .done s' => DlResult.success s'
      | .fail m => DlResult.failure m none
      | .crash => DlResult.crash := by
  rcases hstep : download_step s ev with ⟨sent, nxt⟩
  cases nxt <;> simp [download_run, hstep]

/-- Characterization of a successful download run: the destination file
holds the initial bytes followed by the concatenated accepted payloads, and
the last accepted payload is strictly shorter than `BLOCK_SIZE`. -/
theorem download_run_success_spec (evs : List NetEvent) :
    ∀ (e : Nat) (f : List Nat) (s : DlState),
      (download_run ⟨e, f⟩ evs).2 = DlResult.success s →
      s.fileContents = f ++ (spec_accepted_payloads e evs).flatten ∧
      ∃ l, (spec_accepted_payloads e evs).getLast? = some l ∧
        l.length < BLOCK_SIZE := by
  induction evs with
  | nil =>
    intro e f s h
    simp [download_run] at h
  | cons ev rest ih =>
    intro e f s h
    rw [download_run_cons] at h
    cases hr : receive_data e ev with
    | none =>
      have hstep : (download_step ⟨e, f⟩ ev).2 = DlNext.crash := by
        simp [download_step, hr]
      rw [hstep] at h
      simp at h
    | some r =>
      cases r with
      | timedOut =>
        have hstep : (download_step ⟨e, f⟩ ev).2 = DlNext.cont ⟨e, f⟩ := by
          simp [download_step, hr]
        rw [hstep] at h
        simp only [spec_accepted_payloads, hr]
        exact ih e f s h
      | ok op blk fd src =>
        by_cases hop : op = OPCODE_DATA ∧ blk = (e : Int)
        · obtain ⟨hop1, hop2⟩ := hop
          subst hop1
          subst hop2
          cases hs : send_ack (e : Int) with
          | none =>
            have hstep : (download_step ⟨e, f⟩ ev).2 = DlNext.crash := by
              simp [download_step, hr, hs]
            rw [hstep] at h
            simp at h
          | some ack =>
            by_cases hlen : fd.length < BLOCK_SIZE
            · have hstep : (download_step ⟨e, f⟩ ev).2 =
                  DlNext.done ⟨e + 1, f ++ fd⟩ := by
                simp [download_step, hr, hs, hlen]
              rw [hstep] at h
              simp only [DlResult.success.injEq] at h
              subst h
              constructor
              · simp [spec_accepted_payloads, hr, hlen]
              · refine ⟨fd, ?_, hlen⟩
                simp [spec_accepted_payloads, hr, hlen]
            · have hstep : (download_step ⟨e, f⟩ ev).2 =
                  DlNext.cont ⟨e + 1, f ++ fd⟩ := by
                simp [download_step, hr, hs, hlen]
              rw [hstep] at h
              obtain ⟨hfile, l, hlast, hllen⟩ := ih (e + 1) (f ++ fd) s h
              have hacc : spec_accepted_payloads e (ev :: rest) =
                  fd :: spec_accepted_payloads (e + 1) rest := by
                simp [spec_accepted_payloads, hr, hlen]
              rw [hacc]
              constructor
              · rw [hfile]
                simp
              · refine ⟨l, ?_, hllen⟩
                cases hacc2 : spec_accepted_payloads (e + 1) rest with
                | nil => rw [hacc2] at hlast; simp at hlast
                | cons b t =>
                  rw [hacc2] at hlast
                  rw [List.getLast?_cons_cons]
                  exact hlast
        · by_cases herr : op = OPCODE_ERROR
          · have hstep : (download_step ⟨e, f⟩ ev).2 =
                DlNext.fail (ERROR_CODE_get blk) := by
              simp [download_step, hr, hop, herr, OPCODE_DATA, OPCODE_ERROR]
            rw [hstep] at h
            simp at h
          · have hstep : (download_step ⟨e, f⟩ ev).2 = DlNext.cont ⟨e, f⟩ := by
              simp [download_step, hr, hop, herr]
            rw [hstep] at h
            have hacc : spec_accepted_payloads e (ev :: rest) =
                spec_accepted_payloads e rest := by
              simp [spec_accepted_payloads, hr, hop, herr]
            rw [hacc]
            exact ih e f s h

end TFTP

namespace TFTP

/-- Decoding a datagram of at least four bytes: signed opcode and block
number from the header, the remaining (truncated) bytes as payload. -/
theorem receive_data_cons4 (n b0 b1 b2 b3 : Nat) (rest : List Nat)
    (src : Endpoint) :
    receive_data n (.datagram (b0 :: b1 :: b2 :: b3 :: rest) src) =
      some (.ok (toSigned16 (b0 * 256 + b1)) (toSigned16 (b2 * 256 + b3))
        (rest.take 512) src) := rfl

/-- Every DATA message the upload loop sends is addressed to the original
`server_address` argument; no other destination ever occurs. -/
theorem upload_step_sent_dest (fileBytes : List Nat) (server_address : Endpoint)
    (s : UlState) (ev : NetEvent) :
    (upload_step fileBytes server_address s ev).1 = none ∨
    ∃ m, (upload_step fileBytes server_address s ev).1 =
      some (m, server_address) := by
  simp only [upload_step]
  cases hsd : send_data (s.block_num : Int) ((fileBytes.drop s.pos).take BLOCK_SIZE) with
  | none => left; rfl
  | some msg =>
    cases hrv : receive_data s.block_num ev with
    | none => right; exact ⟨msg, rfl⟩
    | some r =>
      cases r with
      | timedOut => right; exact ⟨msg, rfl⟩
      | ok op ablk fd src =>
        right
        refine ⟨msg, ?_⟩
        dsimp only
        by_cases hop : op = OPCODE_ACK ∧ ablk = (s.block_num : Int)
        · rw [if_pos hop]
          split <;> rfl
        · rw [if_neg hop]

end TFTP

namespace TFTP

/-- C1: the claim says that on an upload timeout the client retransmits the
same Data message with the identical payload and reads no further file
data until the block is acknowledged.  The code instead calls
`file.read(BLOCK_SIZE)` at the top of every loop iteration, so after a
timeout it sends the *next* 512 bytes of the file under the unchanged block
number: uploading a 1024-byte file, with the replies to DATA(1) timing out
twice, the two messages sent for block 1 carry different payloads and the
file has been read to position 1024 while block 1 is still
unacknowledged. -/
theorem C1_timeout_sends_next_chunk_not_retransmission :
    upload_run (List.replicate 512 7 ++ List.replicate 512 9) srvE ⟨1, 0⟩
        [NetEvent.timeout, NetEvent.timeout] =
      ([(0 :: 3 :: 0 :: 1 :: List.replicate 512 7, srvE),
        (0 :: 3 :: 0 :: 1 :: List.replicate 512 9, srvE)],
       UlResult.running ⟨1, 1024⟩) ∧
    (0 :: 3 :: 0 :: 1 :: List.replicate 512 7 : List Nat) ≠
      0 :: 3 :: 0 :: 1 :: List.replicate 512 9 := by
  constructor
  · decide
  · decide

/-- C2 counterexample: the claim says a download receive timeout terminates
the transfer and reports failure.  At the concrete initial state, after a
timeout event the run is still `running` (the caught timeout's all-`None`
result matches neither the DATA nor the ERROR branch), and a later DATA
datagram is still accepted — the transfer neither terminated nor failed. -/
theorem C2_counterexample :
    (download_run ⟨1, []⟩ [NetEvent.timeout]).2 = DlResult.running ⟨1, []⟩ ∧
    (download_run ⟨1, []⟩ [NetEvent.timeout,
        NetEvent.datagram (mkDATA 1 [5]) srvE]).2 = DlResult.success ⟨2, [5]⟩ := by
  constructor
  · decide
  · decide

/-- C2 amended: during a download, if the receive deadline elapses with no
reply, the transfer does **not** terminate and no failure is surfaced: the
request is not retried (nothing is sent), and the engine loops back into
the receive, waiting indefinitely — any number of consecutive timeouts
leaves every download state unchanged and still running. -/
theorem C2_download_timeout_waits_forever (s : DlState) (n : Nat) :
    download_run s (List.replicate n NetEvent.timeout) =
      ([], DlResult.running s) := by
  induction n with
  | zero => rfl
  | succ k ihk =>
    simp only [List.replicate, download_run, download_step, receive_data, ihk]
    rfl

/-- C8: the claim says block numbers are encoded unsigned 16-bit big-endian
and wrap modulo 65536, so every block index n ≥ 1 can be sent with wire
field n mod 65536.  The code packs the block number with the *signed*
format `'>hh'` and never reduces it modulo 65536, so block 32767 still
encodes (as 0x7fff), but at block 32768 `struct.pack` raises
`struct.error` and the upload loop dies having sent nothing, instead of
sending wire field 32768 mod 65536 = 32768. -/
theorem C8_block_32768_encoding_crashes :
    send_data 32767 [] = some [0, 3, 127, 255] ∧
    send_data 32768 [] = none ∧
    upload_step (List.replicate 42 1) srvE ⟨32768, 0⟩ NetEvent.timeout =
      (none, UlNext.crash) := by
  refine ⟨by decide, by decide, by decide⟩

end TFTP

namespace TFTP

/-- C3 counterexample: the claim says that after the first reply is
received from endpoint E, datagrams from any other endpoint are discarded
unprocessed.  In the concrete run below the first accepted DATA comes from
`srvE`, yet the following DATA(2) from the distinct endpoint `atkE` is
fully processed: its payload is appended to the file, it completes the
transfer, and its ACK is sent to `atkE`. -/
theorem C3_counterexample :
    download_run ⟨1, []⟩
        [NetEvent.datagram (mkDATA 1 (List.replicate 512 7)) srvE,
         NetEvent.datagram (mkDATA 2 [5]) atkE] =
      ([([0, 4, 0, 1], srvE), ([0, 4, 0, 2], atkE)],
       DlResult.success ⟨3, List.replicate 512 7 ++ [5]⟩) ∧
    srvE ≠ atkE := by
  constructor
  · decide
  · decide

/-- C3 amended: the engine performs no endpoint locking at all.  During a
download, a DATA datagram carrying the expected block number is accepted
from *any* source endpoint, and the ACK is addressed to that datagram's own
source; during an upload, every DATA message is sent to the original
well-known `server_address` argument, regardless of where replies came
from. -/
theorem C3_no_endpoint_locking :
    (∀ (e : Nat) (f : List Nat) (b2 b3 : Nat) (payload : List Nat)
        (src : Endpoint) (ack : List Nat),
        toSigned16 (b2 * 256 + b3) = (e : Int) →
        send_ack (e : Int) = some ack →
        (download_step ⟨e, f⟩
            (.datagram (0 :: 3 :: b2 :: b3 :: payload) src)).1 =
          some (ack, src)) ∧
    (∀ (fileBytes : List Nat) (server_address : Endpoint) (s : UlState)
        (ev : NetEvent) (m : List Nat) (dst : Endpoint),
        (upload_step fileBytes server_address s ev).1 = some (m, dst) →
        dst = server_address) := by
  constructor
  · intro e f b2 b3 payload src ack hblk hack
    have h3 : toSigned16 (0 * 256 + 3) = OPCODE_DATA := by decide
    rw [download_step, receive_data_cons4]
    simp only [h3, hblk, eq_self_iff_true, and_self, if_true, hack]
    split <;> rfl
  · intro fileBytes server_address s ev m dst hm
    rcases upload_step_sent_dest fileBytes server_address s ev with h0 | ⟨m', hm'⟩
    · rw [h0] at hm
      exact absurd hm (by simp)
    · rw [hm'] at hm
      simp only [Option.some.injEq, Prod.mk.injEq] at hm
      exact hm.2.symm

/-- C4 counterexample: the claim says an upload stops as a terminal failure
when an Error reply arrives and sends no further Data afterwards.  In the
concrete run below, the client uploads a 1024-byte file, receives an ERROR
(code 2) reply to DATA(1), yet the loop continues running and sends another
DATA message (for the same block number 1, now carrying the next file
chunk) after the Error was received. -/
theorem C4_counterexample :
    upload_run (List.replicate 512 7 ++ List.replicate 512 9) srvE ⟨1, 0⟩
        [NetEvent.datagram (mkERROR 2 []) srvE, NetEvent.timeout] =
      ([(0 :: 3 :: 0 :: 1 :: List.replicate 512 7, srvE),
        (0 :: 3 :: 0 :: 1 :: List.replicate 512 9, srvE)],
       UlResult.running ⟨1, 1024⟩) := by
  decide

/-- C4 amended: the upload loop has no Error branch at all: a reply whose
opcode decodes to ERROR is treated exactly like any other non-matching
reply — nothing is translated, the transfer does not stop, the block number
stays unchanged, and the loop proceeds (re-sending under the same block
number from the advanced file position). -/
theorem C4_upload_ignores_error_reply (fileBytes : List Nat)
    (server_address : Endpoint) (s : UlState) (b2 b3 : Nat)
    (emsg : List Nat) (src : Endpoint) (m : List Nat) :
    send_data (s.block_num : Int) ((fileBytes.drop s.pos).take BLOCK_SIZE) =
      some m →
    upload_step fileBytes server_address s
        (.datagram (0 :: 5 :: b2 :: b3 :: emsg) src) =
      (some (m, server_address),
       UlNext.cont ⟨s.block_num,
         s.pos + ((fileBytes.drop s.pos).take BLOCK_SIZE).length⟩) := by
  intro hm
  have h5 : toSigned16 (0 * 256 + 5) = (5 : Int) := by decide
  rw [upload_step]
  simp only [hm, receive_data_cons4, h5]
  have hne : ¬((5 : Int) = OPCODE_ACK ∧
      toSigned16 (b2 * 256 + b3) = (s.block_num : Int)) := by
    rintro ⟨h, -⟩
    simp [OPCODE_ACK] at h
  rw [if_neg hne]

end TFTP

namespace TFTP

/-- C5: confirmed.  For every successful download run started from the
initial state, the destination file equals the concatenation of the
accepted DATA payloads in increasing block-number order starting at 1 (no
gaps, duplicates or reordering), the accepted sequence is nonempty, and its
last payload is strictly shorter than 512 bytes; concretely, a transfer of
one 512-byte block followed by one 0-byte block is still running after the
512-byte block and complete only after the 0-byte block. -/
theorem C5_download_concatenation_and_final_block :
    (∀ (evs : List NetEvent) (s : DlState),
        (download_run ⟨1, []⟩ evs).2 = DlResult.success s →
        s.fileContents = (spec_accepted_payloads 1 evs).flatten ∧
        spec_accepted_payloads 1 evs ≠ [] ∧
        ((spec_accepted_payloads 1 evs).getLastD []).length < BLOCK_SIZE) ∧
    (download_run ⟨1, []⟩
        [NetEvent.datagram (mkDATA 1 (List.replicate 512 37)) srvE]).2 =
      DlResult.running ⟨2, List.replicate 512 37⟩ ∧
    (download_run ⟨1, []⟩
        [NetEvent.datagram (mkDATA 1 (List.replicate 512 37)) srvE,
         NetEvent.datagram (mkDATA 2 []) srvE]).2 =
      DlResult.success ⟨3, List.replicate 512 37⟩ := by
  refine ⟨?_, by decide, by decide⟩
  intro evs s h
  obtain ⟨hf, l, hl, hlen⟩ := download_run_success_spec evs 1 [] s h
  refine ⟨by simpa using hf, ?_, ?_⟩
  · intro hnil
    rw [hnil] at hl
    simp at hl
  · rw [List.getLastD_eq_getLast?, hl]
    exact hlen

/-- Witness for C5 at the concrete 512-byte-then-0-byte transfer. -/
theorem C5_witness :
    (⟨3, List.replicate 512 37⟩ : DlState).fileContents =
      (spec_accepted_payloads 1
        [NetEvent.datagram (mkDATA 1 (List.replicate 512 37)) srvE,
         NetEvent.datagram (mkDATA 2 []) srvE]).flatten ∧
    spec_accepted_payloads 1
        [NetEvent.datagram (mkDATA 1 (List.replicate 512 37)) srvE,
         NetEvent.datagram (mkDATA 2 []) srvE] ≠ [] ∧
    ((spec_accepted_payloads 1
        [NetEvent.datagram (mkDATA 1 (List.replicate 512 37)) srvE,
         NetEvent.datagram (mkDATA 2 []) srvE]).getLastD []).length <
      BLOCK_SIZE :=
  C5_download_concatenation_and_final_block.1
    [NetEvent.datagram (mkDATA 1 (List.replicate 512 37)) srvE,
     NetEvent.datagram (mkDATA 2 []) srvE]
    ⟨3, List.replicate 512 37⟩ (by decide)

/-- C6 counterexample: the claim says a duplicate DATA for an
already-acknowledged block causes the same ACK to be re-sent.  At expected
block 2, a duplicate DATA(1) datagram produces **no** send at all (the sent
list is empty) — though, as claimed, nothing is re-appended to the file. -/
theorem C6_counterexample :
    download_run ⟨2, [9]⟩ [NetEvent.datagram (mkDATA 1 [7]) srvE] =
      ([], DlResult.running ⟨2, [9]⟩) := by
  decide

/-- C6 amended: a DATA datagram whose block number differs from the
expected one (in particular a duplicate of an already-acknowledged block)
is silently dropped: the payload is not appended, **no ACK is re-sent**
(nothing is sent at all), and the loop keeps waiting unchanged. -/
theorem C6_duplicate_data_dropped_without_ack (s : DlState) (b2 b3 : Nat)
    (payload : List Nat) (src : Endpoint) :
    toSigned16 (b2 * 256 + b3) ≠ (s.expected : Int) →
    download_step s (.datagram (0 :: 3 :: b2 :: b3 :: payload) src) =
      (none, DlNext.cont s) := by
  intro hne
  have h3 : toSigned16 (0 * 256 + 3) = OPCODE_DATA := by decide
  rw [download_step, receive_data_cons4]
  dsimp only
  rw [h3, if_neg (fun hc => hne hc.2),
    if_neg (by decide : ¬(OPCODE_DATA = OPCODE_ERROR))]

/-- Witness for C6: duplicate DATA(1) at expected block 2. -/
theorem C6_witness :
    download_step ⟨2, [9]⟩ (.datagram (0 :: 3 :: 0 :: 1 :: [7]) srvE) =
      (none, DlNext.cont ⟨2, [9]⟩) :=
  C6_duplicate_data_dropped_without_ack ⟨2, [9]⟩ 0 1 [7] srvE (by decide)

/-- C7 counterexample: the claim says a datagram that is not decodable as a
valid message never raises an error.  An empty datagram makes
`unpack('>hh', data[:4])` raise `struct.error`, which no handler catches:
the transfer crashes instead of continuing to wait. -/
theorem C7_counterexample :
    download_run ⟨1, []⟩ [NetEvent.datagram [] srvE] =
      ([], DlResult.crash) := by
  decide

/-- C7 amended: a datagram of at least four bytes whose decoded opcode and
block number match neither the expected-DATA branch nor the ERROR branch is
silently discarded (nothing sent, state unchanged) and the engine keeps
waiting — the source endpoint is never even examined — but a datagram
shorter than four bytes makes the header `unpack` raise an uncaught
`struct.error`, terminating the transfer. -/
theorem C7_mismatch_discarded_but_short_datagram_raises :
    (∀ (s : DlState) (b0 b1 b2 b3 : Nat) (rest : List Nat) (src : Endpoint),
        ¬(toSigned16 (b0 * 256 + b1) = OPCODE_DATA ∧
          toSigned16 (b2 * 256 + b3) = (s.expected : Int)) →
        toSigned16 (b0 * 256 + b1) ≠ OPCODE_ERROR →
        download_step s (.datagram (b0 :: b1 :: b2 :: b3 :: rest) src) =
          (none, DlNext.cont s)) ∧
    (∀ (s : DlState) (src : Endpoint),
        download_step s (.datagram [] src) = (none, DlNext.crash)) := by
  constructor
  · intro s b0 b1 b2 b3 rest src h1 h2
    rw [download_step, receive_data_cons4]
    dsimp only
    rw [if_neg h1, if_neg h2]
  · intro s src
    rfl

/-- Witness for C7: a mismatched ACK datagram is discarded; an empty
datagram crashes. -/
theorem C7_witness :
    download_step ⟨1, []⟩ (.datagram (0 :: 4 :: 0 :: 1 :: []) srvE) =
      (none, DlNext.cont ⟨1, []⟩) ∧
    download_step ⟨1, []⟩ (.datagram [] srvE) = (none, DlNext.crash) :=
  ⟨C7_mismatch_discarded_but_short_datagram_raises.1 ⟨1, []⟩ 0 4 0 1 [] srvE
      (by decide) (by decide),
   C7_mismatch_discarded_but_short_datagram_raises.2 ⟨1, []⟩ srvE⟩

end TFTP

namespace TFTP

/-- Witness for C3: a DATA(1) datagram from `atkE` is accepted and its ACK
is addressed to `atkE`; the upload send-destination instance at the
original server address. -/
theorem C3_witness :
    (download_step ⟨1, []⟩ (.datagram (0 :: 3 :: 0 :: 1 :: [5]) atkE)).1 =
      some ([0, 4, 0, 1], atkE) ∧
    srvE = srvE :=
  ⟨C3_no_endpoint_locking.1 1 [] 0 1 [5] atkE [0, 4, 0, 1]
      (by decide) (by decide),
   C3_no_endpoint_locking.2 [] srvE ⟨1, 0⟩ NetEvent.timeout
      [0, 3, 0, 1] srvE (by decide)⟩

/-- Witness for C4: an ERROR(2) reply to DATA(1) of a 600-byte upload
leaves the loop continuing with the block number unchanged. -/
theorem C4_witness :
    upload_step (List.replicate 600 1) srvE ⟨1, 0⟩
        (.datagram (0 :: 5 :: 0 :: 2 :: []) srvE) =
      (some (0 :: 3 :: 0 :: 1 :: List.replicate 512 1, srvE),
       UlNext.cont ⟨1, 512⟩) :=
  C4_upload_ignores_error_reply (List.replicate 600 1) srvE ⟨1, 0⟩ 0 2 [] srvE
    (0 :: 3 :: 0 :: 1 :: List.replicate 512 1) (by decide)

/-- C9: confirmed.  During a download, an ERROR datagram with error code 1
makes the transfer fail with the message exactly `"File not found."` and
the partially written destination file removed from disk (`os.remove`,
modelled as disk `none`), whatever the session state; and every error code
outside 0–7 translates to the generic unknown-error string of the source,
`"알 수 없는 오류"`. -/
theorem C9_error_code_translation :
    (∀ (s : DlState) (emsg : List Nat) (src : Endpoint)
        (evs : List NetEvent),
        download_run s
            (NetEvent.datagram (0 :: 5 :: 0 :: 1 :: emsg) src :: evs) =
          ([], DlResult.failure "File not found." none)) ∧
    (∀ c : Int, c < 0 ∨ 7 < c → ERROR_CODE_get c = "알 수 없는 오류") := by
  constructor
  · intro s emsg src evs
    have hstep : download_step s (.datagram (0 :: 5 :: 0 :: 1 :: emsg) src) =
        (none, DlNext.fail "File not found.") := by
      rw [download_step, receive_data_cons4]
      dsimp only
      rw [if_neg (fun hc => absurd hc.1 (by decide)), if_pos (by decide)]
      decide
    simp [download_run, hstep]
  · intro c hc
    have e0 : c ≠ 0 := by rcases hc with h | h <;> omega
    have e1 : c ≠ 1 := by rcases hc with h | h <;> omega
    have e2 : c ≠ 2 := by rcases hc with h | h <;> omega
    have e3 : c ≠ 3 := by rcases hc with h | h <;> omega
    have e4 : c ≠ 4 := by rcases hc with h | h <;> omega
    have e5 : c ≠ 5 := by rcases hc with h | h <;> omega
    have e6 : c ≠ 6 := by rcases hc with h | h <;> omega
    have e7 : c ≠ 7 := by rcases hc with h | h <;> omega
    simp [ERROR_CODE_get, e0, e1, e2, e3, e4, e5, e6, e7]

/-- Witness for C9: ERROR code 1 from the server endpoint at the initial
state, and the unrecognized code 8. -/
theorem C9_witness :
    download_run ⟨1, []⟩ [NetEvent.datagram (0 :: 5 :: 0 :: 1 :: []) srvE] =
      ([], DlResult.failure "File not found." none) ∧
    ERROR_CODE_get 8 = "알 수 없는 오류" :=
  ⟨C9_error_code_translation.1 ⟨1, []⟩ [] srvE [],
   C9_error_code_translation.2 8 (Or.inr (by decide))⟩

/-- C10: confirmed.  During a download, any datagram of at least four bytes
whose first header field decodes to the ERROR opcode is terminal no matter
which endpoint sent it (the source is never examined) and no matter what
the current expected block and file contents are: the loop stops, the
remaining events are never consumed, the outcome is a failure carrying the
translated code, and the destination file is deleted (disk `none`) — so a
single spoofed datagram aborts the download and destroys the partial
file. -/
theorem C10_error_opcode_always_terminal (s : DlState) (b2 b3 : Nat)
    (emsg : List Nat) (src : Endpoint) (evs : List NetEvent) :
    download_run s
        (NetEvent.datagram (0 :: 5 :: b2 :: b3 :: emsg) src :: evs) =
      ([], DlResult.failure (ERROR_CODE_get (toSigned16 (b2 * 256 + b3)))
        none) := by
  have hstep : download_step s (.datagram (0 :: 5 :: b2 :: b3 :: emsg) src) =
      (none, DlNext.fail (ERROR_CODE_get (toSigned16 (b2 * 256 + b3)))) := by
    rw [download_step, receive_data_cons4]
    dsimp only
    rw [if_neg (fun hc => absurd hc.1 (by decide)), if_pos (by decide)]
  simp [download_run, hstep]

end TFTP
